import Mathlib

set_option autoImplicit false

/-!
Verification of the MTXCast stream-orchestration core against its
specification.  The Python sources (`stream_manager.py`, `metadata.py`,
`webrtc.py`, `api_server.py`) are shallowly embedded: every operation is a
pure function from an explicit state to a new state together with the list
of transport calls it emits and an optional raised error.  Python float
values (volume, positions, durations) are modelled as rationals; Python
`None`-or-string values as `Option String`, with Python truthiness (empty
string and `None` are falsy) made explicit by the helpers below.  External
effects (the yt-dlp backend, the filesystem, the WebRTC engine, the player
transport) are oracles passed in as parameters.
-/

namespace MTXCast

/-- Python truthiness of a `str | None` value: `None` and `""` are falsy. -/
def strTruthy : Option String → Bool
  | none => false
  | some s => s != ""

/-- Python `a or b` on `str | None` values. -/
def pyOrStr (a b : Option String) : Option String :=
  if strTruthy a then a else b

/-- Python `a or d` where `d` is a (truthy) default string. -/
def pyOrStrD (a : Option String) (d : String) : String :=
  match a with
  | none => d
  | some s => if s == "" then d else s

/-- `StreamType` enum from `stream_manager.py`. -/
inductive StreamType where
  | IDLE
  | METADATA
  | WHIP
deriving DecidableEq, Repr

/-- `PlaybackMetrics` dataclass from `stream_manager.py`. -/
structure PlaybackMetrics where
  position : Option ℚ := none
  duration : Option ℚ := none
  is_seekable : Bool := false
deriving DecidableEq, Repr

/-- `PlayerStatus` dataclass from `stream_manager.py`. -/
structure PlayerStatus where
  stream_type : StreamType := StreamType.IDLE
  title : Option String := none
  is_playing : Bool := false
  volume : ℚ := 1
  position : Option ℚ := none
  duration : Option ℚ := none
  is_seekable : Bool := false
deriving DecidableEq, Repr

/-- A call made on the `PlayerTransport` protocol. -/
inductive TransportCall where
  | playUrl (url : String) (start_time : ℚ) (title : Option String)
  | playSeparatedStreams (video_url audio_url : String) (start_time : ℚ) (title : Option String)
  | attachWebrtcTrack
  | pauseCall
  | resumeCall
  | seekCall (position : ℚ)
  | setVolumeCall (volume : ℚ)
  | getMetricsCall
  | stopCall
deriving DecidableEq, Repr

/-- Result of running one `StreamManager` command: the stored status after the
command, the transport calls it issued, and the raised exception if any
(in which case `status` is the unchanged prior status). -/
structure StepResult where
  status : PlayerStatus
  calls : List TransportCall
  err : Option String
deriving DecidableEq, Repr

/-- `StreamManager.set_volume`: forwards `v` to the transport and stores `v`
in the status, with no clamping. -/
def set_volume (s : PlayerStatus) (v : ℚ) : StepResult :=
  { status := { s with volume := v },
    calls := [TransportCall.setVolumeCall v],
    err := none }

/-- The `control_volume` HTTP handler from `api_server.py`: clamps the payload
volume to `[0, 1]` with `max(0.0, min(volume, 1.0))` and then calls
`StreamManager.set_volume`. -/
def control_volume (s : PlayerStatus) (v : ℚ) : StepResult :=
  set_volume s (max 0 (min v 1))

/-- `StreamManager.current_status`: queries transport metrics and overwrites
`position`, `duration`, `is_seekable` in place. -/
def current_status (m : PlaybackMetrics) (s : PlayerStatus) : StepResult :=
  { status := { s with
      position := m.position,
      duration := m.duration,
      is_seekable := m.is_seekable },
    calls := [TransportCall.getMetricsCall],
    err := none }

/-- `StreamManager.stop`: calls transport stop and replaces the status with a
fresh IDLE status carrying over only the volume. -/
def stop (s : PlayerStatus) : StepResult :=
  { status := { stream_type := StreamType.IDLE,
                title := none,
                is_playing := false,
                volume := s.volume,
                position := none,
                duration := none,
                is_seekable := false },
    calls := [TransportCall.stopCall],
    err := none }

/-- `StreamManager.handle_whip_track`: attaches the track and replaces the
status with a WHIP status; the title is `title or "Live WHIP Stream"`. -/
def handle_whip_track (s : PlayerStatus) (title : Option String) : StepResult :=
  { status := { stream_type := StreamType.WHIP,
                title := some (pyOrStrD title "Live WHIP Stream"),
                is_playing := true,
                volume := s.volume,
                position := none,
                duration := none,
                is_seekable := false },
    calls := [TransportCall.attachWebrtcTrack],
    err := none }

/-- Oracle bundle for the effects `_handle_file_impl` performs: filesystem
existence, `Path.name`, `QUrl.fromLocalFile(...).toString()`, and whether the
transport accepts the `play_url` call. -/
structure FileEnv where
  fileExists : String → Bool
  basename : String → String
  toFileUrl : String → String
  playOk : Bool

/-- `StreamManager._handle_file_impl`: checks existence (raising
`FileNotFoundError` otherwise before any transport call or status change),
derives the title from the file name when the given title is falsy, converts
the path to a file URL, calls `play_url` (propagating its failure with the
status unchanged), then replaces the status. -/
def _handle_file_impl (env : FileEnv) (s : PlayerStatus) (file_path : String)
    (start_time : ℚ) (title : Option String) : StepResult :=
  if env.fileExists file_path then
    let t := pyOrStrD title (env.basename file_path)
    let url := env.toFileUrl file_path
    if env.playOk then
      { status := { stream_type := StreamType.METADATA,
                    title := some t,
                    is_playing := true,
                    volume := s.volume,
                    position := some start_time,
                    duration := none,
                    is_seekable := true },
        calls := [TransportCall.playUrl url start_time (some t)],
        err := none }
    else
      { status := s,
        calls := [TransportCall.playUrl url start_time (some t)],
        err := some "PlaybackError" }
  else
    { status := s, calls := [], err := some ("File not found: " ++ file_path) }

/-- `StreamManager.handle_file`: the public wrapper over `_handle_file_impl`
(the lock acquisition has no observable effect in this sequential model). -/
def handle_file (env : FileEnv) (s : PlayerStatus) (file_path : String)
    (start_time : ℚ) (title : Option String) : StepResult :=
  _handle_file_impl env s file_path start_time title

/-- `ResolvedMedia` dataclass from `metadata.py`. -/
structure ResolvedMedia where
  playback_url : String
  title : Option String := none
  start_time : ℚ := 0
  video_url : Option String := none
  audio_url : Option String := none
  file_path : Option String := none
  video_file_path : Option String := none
  audio_file_path : Option String := none
deriving DecidableEq, Repr

/-- One entry of a yt-dlp `formats` / `requested_formats` list; absent keys
are `none`, matching `dict.get`. -/
structure Format where
  url : Option String := none
  manifest_url : Option String := none
  fragment_base_url : Option String := none
  vcodec : Option String := none
  acodec : Option String := none
  format_id : Option String := none
deriving DecidableEq, Repr

/-- The fields of a yt-dlp `extract_info` result that `resolve` reads. -/
structure Info where
  url : Option String := none
  manifest_url : Option String := none
  fragment_base_url : Option String := none
  title : Option String := none
  requested_formats : List Format := []
  formats : List Format := []
deriving DecidableEq, Repr

/-- `fmt.get("url") or fmt.get("manifest_url") or fmt.get("fragment_base_url")`. -/
def fmtUrl (f : Format) : Option String :=
  pyOrStr f.url (pyOrStr f.manifest_url f.fragment_base_url)

/-- The URL of a format when it is truthy (`if fmt_url:` in the scans). -/
def truthyUrl (f : Format) : Option String :=
  if strTruthy (fmtUrl f) then fmtUrl f else none

/-- `fmt.get("vcodec") != "none"` (a missing vcodec counts as video). -/
def hasVideo (f : Format) : Bool := !(f.vcodec == some "none")

/-- `fmt.get("acodec") != "none"` (a missing acodec counts as audio). -/
def hasAudio (f : Format) : Bool := !(f.acodec == some "none")

/-- The `for fmt in requested_formats` loop: successive assignment of the
video-only and audio-only URLs, so the last matching entry of each kind wins;
entries without a truthy URL are skipped. -/
def scanRequested (rf : List Format) : Option String × Option String :=
  rf.foldl
    (fun acc f =>
      match truthyUrl f with
      | none => acc
      | some u =>
        if hasVideo f && !(hasAudio f) then (some u, acc.2)
        else if hasAudio f && !(hasVideo f) then (acc.1, some u)
        else acc)
    (none, none)

/-- `info.get("url") or info.get("manifest_url") or info.get("fragment_base_url")`. -/
def topUrl (info : Info) : Option String :=
  pyOrStr info.url (pyOrStr info.manifest_url info.fragment_base_url)

/-- The `for fmt in formats` fallback loop: the first entry with a truthy URL. -/
def scanFormats (fs : List Format) : Option String :=
  fs.findSome? truthyUrl

/-- Python `needle in haystack` on strings, over the character lists. -/
def containsSub (needle : List Char) : List Char → Bool
  | [] => needle.isPrefixOf []
  | c :: rest => needle.isPrefixOf (c :: rest) || containsSub needle rest

/-- `MetadataResolver._is_niconico`: substring test on the URL. -/
def _is_niconico (url : String) : Bool :=
  containsSub "nicovideo.jp".toList url.toList ||
    containsSub "nico.ms".toList url.toList

/-- The non-download path of `MetadataResolver.resolve`, applied to an already
extracted `info`: separated-streams branch when `requested_formats` has at
least two entries and the scan finds both a video-only and an audio-only URL;
otherwise the top-level direct URL when truthy; otherwise the first truthy URL
from the `formats` list; otherwise the no-playable-format error. -/
def resolveInfo (payloadTitle : Option String) (payloadStart : Option ℚ)
    (info : Info) : Except String ResolvedMedia :=
  let sep :=
    if 2 ≤ info.requested_formats.length then scanRequested info.requested_formats
    else (none, none)
  match sep with
  | (some vu, some au) =>
    Except.ok { playback_url := "",
                title := pyOrStr payloadTitle info.title,
                start_time := payloadStart.getD 0,
                video_url := some vu,
                audio_url := some au,
                file_path := none,
                video_file_path := none,
                audio_file_path := none }
  | _ =>
    let pu := if strTruthy (topUrl info) then topUrl info else scanFormats info.formats
    match pu with
    | some u =>
      Except.ok { playback_url := u,
                  title := pyOrStr payloadTitle info.title,
                  start_time := payloadStart.getD 0,
                  video_url := none,
                  audio_url := none,
                  file_path := none,
                  video_file_path := none,
                  audio_file_path := none }
    | none => Except.error "No playable format found with direct URL"

/-- `MetadataResolver.resolve`.  The backend is an oracle: `extract` is the
result of `extract_info` (`none` when it raises) and `download` the local path
produced by `_download_to_temp_file` (`none` when downloading raises).  For a
niconico URL the download branch runs and returns or raises there, with no
fallback into the general path; otherwise the general extraction path runs. -/
def resolve (url : String) (payloadTitle : Option String) (payloadStart : Option ℚ)
    (extract : Option Info) (download : Option String) : Except String ResolvedMedia :=
  if _is_niconico url then
    match extract with
    | none => Except.error "Failed to download niconico video"
    | some info =>
      match download with
      | none => Except.error "Failed to download niconico video"
      | some fp =>
        Except.ok { playback_url := "",
                    title := pyOrStr payloadTitle info.title,
                    start_time := payloadStart.getD 0,
                    video_url := none,
                    audio_url := none,
                    file_path := some fp,
                    video_file_path := none,
                    audio_file_path := none }
  else
    match extract with
    | none => Except.error "Failed to extract video info"
    | some info => resolveInfo payloadTitle payloadStart info

/-- The post-resolution dispatch of `StreamManager.handle_metadata`: file-path
results are played through `_handle_file_impl`; separated video/audio URLs
through `play_separated_streams`; anything else through `play_url`. -/
def handle_metadata_resolved (env : FileEnv) (s : PlayerStatus)
    (r : ResolvedMedia) : StepResult :=
  if strTruthy r.file_path then
    _handle_file_impl env s (r.file_path.getD "") r.start_time r.title
  else if strTruthy r.video_url && strTruthy r.audio_url then
    if env.playOk then
      { status := { stream_type := StreamType.METADATA,
                    title := r.title,
                    is_playing := true,
                    volume := s.volume,
                    position := some r.start_time,
                    duration := none,
                    is_seekable := true },
        calls := [TransportCall.playSeparatedStreams (r.video_url.getD "")
                    (r.audio_url.getD "") r.start_time r.title],
        err := none }
    else
      { status := s,
        calls := [TransportCall.playSeparatedStreams (r.video_url.getD "")
                    (r.audio_url.getD "") r.start_time r.title],
        err := some "PlaybackError" }
  else
    if env.playOk then
      { status := { stream_type := StreamType.METADATA,
                    title := r.title,
                    is_playing := true,
                    volume := s.volume,
                    position := some r.start_time,
                    duration := none,
                    is_seekable := true },
        calls := [TransportCall.playUrl r.playback_url r.start_time r.title],
        err := none }
    else
      { status := s,
        calls := [TransportCall.playUrl r.playback_url r.start_time r.title],
        err := some "PlaybackError" }

/-- `StreamManager.handle_metadata`: resolve, then dispatch; a resolution
error propagates with the status unchanged and no transport call. -/
def handle_metadata (env : FileEnv) (s : PlayerStatus) (url : String)
    (payloadTitle : Option String) (payloadStart : Option ℚ)
    (extract : Option Info) (download : Option String) : StepResult :=
  match resolve url payloadTitle payloadStart extract download with
  | Except.error e => { status := s, calls := [], err := some e }
  | Except.ok r => handle_metadata_resolved env s r

/-- State of a `WhipEndpoint`: the `_pcs` dict keyed by resource id (the
stored peer-connection handles carry no further data the claims need) and a
count of `pc.close()` invocations. -/
structure WhipState where
  pcs : String → Option Unit
  closeCalls : ℕ

/-- `WhipEndpoint._cleanup_peer`: `self._pcs.pop(resource_id, None)`; when an
entry was present, close the popped connection. -/
def _cleanup_peer (st : WhipState) (rid : String) : WhipState :=
  match st.pcs rid with
  | some _ =>
    { pcs := fun k => if k = rid then none else st.pcs k,
      closeCalls := st.closeCalls + 1 }
  | none => st

/-- `WhipEndpoint.delete_resource`: delegates to `_cleanup_peer`. -/
def delete_resource (st : WhipState) (rid : String) : WhipState :=
  _cleanup_peer st rid

/-- `WhipEndpoint.handle_offer` with the negotiation steps
(`setRemoteDescription` / `createAnswer` / `setLocalDescription`) as an
oracle: `negotiated` is `some answerSdp` on success and `none` when any of
them raises.  A fresh resource id is registered first; on failure the partial
session is cleaned up and the negotiation error raised. -/
def handle_offer (st : WhipState) (rid : String) (negotiated : Option String) :
    WhipState × Except String (String × String) :=
  let st1 : WhipState :=
    { pcs := fun k => if k = rid then some () else st.pcs k,
      closeCalls := st.closeCalls }
  match negotiated with
  | some answer => (st1, Except.ok (answer, rid))
  | none => (_cleanup_peer st1 rid, Except.error "Failed to negotiate WHIP session")

/-! Concrete fixtures used to instantiate the theorems. -/

def initialStatus : PlayerStatus := {}

def noFileEnv : FileEnv :=
  { fileExists := fun _ => false,
    basename := fun p => p,
    toFileUrl := fun p => p,
    playOk := true }

def okFileEnv : FileEnv :=
  { fileExists := fun _ => true,
    basename := fun p => p ++ ".name",
    toFileUrl := fun p => "file://" ++ p,
    playOk := true }

def emptyWhip : WhipState := { pcs := fun _ => none, closeCalls := 0 }

def oneWhip : WhipState :=
  { pcs := fun k => if k = "r" then some () else none, closeCalls := 0 }

/-! Helper lemmas shared by several claim theorems. -/

theorem _handle_file_impl_volume (env : FileEnv) (s : PlayerStatus) (p : String)
    (st : ℚ) (t : Option String) :
    (_handle_file_impl env s p st t).status.volume = s.volume := by
  unfold _handle_file_impl
  split
  · split <;> rfl
  · rfl

theorem handle_metadata_resolved_volume (env : FileEnv) (s : PlayerStatus)
    (r : ResolvedMedia) :
    (handle_metadata_resolved env s r).status.volume = s.volume := by
  unfold handle_metadata_resolved
  split
  · exact _handle_file_impl_volume env s (r.file_path.getD "") r.start_time r.title
  · split
    · split <;> rfl
    · split <;> rfl

theorem handle_metadata_volume (env : FileEnv) (s : PlayerStatus) (url : String)
    (pt : Option String) (ps : Option ℚ) (ex : Option Info) (dl : Option String) :
    (handle_metadata env s url pt ps ex dl).status.volume = s.volume := by
  unfold handle_metadata
  split
  · rfl
  · exact handle_metadata_resolved_volume env s _

/-- C1: the claim says `StreamManager.set_volume(v)` itself clamps `v` to
`[0, 1]` before storing, but the manager stores `v` unchanged: at `v = 2` the
stored volume is `2`, not `clamp(2, 0, 1) = 1`. -/
theorem C1_counterexample :
    (set_volume initialStatus 2).status.volume = 2 ∧
    ¬ (set_volume initialStatus 2).status.volume = max 0 (min (2 : ℚ) 1) := by
  constructor
  · rfl
  · intro h
    rw [show (set_volume initialStatus 2).status.volume = 2 from rfl] at h
    norm_num at h

/-- C1 (amended): `StreamManager.set_volume` forwards and stores `v`
unchanged; the clamping to `[0, 1]` is performed by the HTTP volume handler
`control_volume` before it calls the manager, so after the volume endpoint the
stored volume equals `clamp(v, 0, 1)`. -/
theorem C1_volume_clamped_in_api_layer (s : PlayerStatus) (v : ℚ) :
    (set_volume s v).status = { s with volume := v } ∧
    (set_volume s v).calls = [TransportCall.setVolumeCall v] ∧
    (control_volume s v).status.volume = max 0 (min v 1) ∧
    (control_volume s v).calls = [TransportCall.setVolumeCall (max 0 (min v 1))] :=
  ⟨rfl, rfl, rfl, rfl⟩

/-- C2: when negotiation raises inside `handle_offer`, the partially created
session is torn down before the error propagates: the resource id is absent
from the session map (every other key is untouched), the connection close ran
exactly once more, and the call fails with the negotiation error. -/
theorem C2_handle_offer_failure_cleanup (st : WhipState) (rid : String) :
    (handle_offer st rid none).1.pcs rid = none ∧
    (handle_offer st rid none).1.pcs = (fun k => if k = rid then none else st.pcs k) ∧
    (handle_offer st rid none).1.closeCalls = st.closeCalls + 1 ∧
    (handle_offer st rid none).2 = Except.error "Failed to negotiate WHIP session" := by
  refine ⟨?_, ?_, ?_, ?_⟩
  · simp [handle_offer, _cleanup_peer]
  · funext k
    by_cases hk : k = rid <;> simp [handle_offer, _cleanup_peer, hk]
  · simp [handle_offer, _cleanup_peer]
  · simp [handle_offer, _cleanup_peer]

/-- C4: `handle_file` (via `_handle_file_impl`) on a non-existent path raises
the file-not-found error, makes no transport call and leaves the status
unchanged. -/
theorem C4_file_not_found_no_mutation (env : FileEnv) (s : PlayerStatus)
    (p : String) (st : ℚ) (t : Option String) (h : env.fileExists p = false) :
    _handle_file_impl env s p st t =
      { status := s, calls := [], err := some ("File not found: " ++ p) } ∧
    handle_file env s p st t =
      { status := s, calls := [], err := some ("File not found: " ++ p) } := by
  unfold handle_file _handle_file_impl
  rw [h]
  exact ⟨rfl, rfl⟩

theorem C4_witness :
    noFileEnv.fileExists "/tmp/x.mp4" = false ∧
    handle_file noFileEnv initialStatus "/tmp/x.mp4" 0 none =
      { status := initialStatus, calls := [],
        err := some ("File not found: " ++ "/tmp/x.mp4") } :=
  ⟨rfl, (C4_file_not_found_no_mutation noFileEnv initialStatus "/tmp/x.mp4" 0 none rfl).2⟩

/-- C5: `stop` resets the status to IDLE with title/position/duration unset,
`is_playing` and `is_seekable` false, while keeping the pre-stop volume; and
every stream-type transition (`handle_metadata`, `handle_file`,
`handle_whip_track`) likewise carries the volume over unchanged. -/
theorem C5_stop_resets_volume_persists (s : PlayerStatus) :
    (stop s).status = { stream_type := StreamType.IDLE, title := none,
                        is_playing := false, volume := s.volume, position := none,
                        duration := none, is_seekable := false } ∧
    (stop s).status.volume = s.volume ∧
    (∀ env url pt ps ex dl,
      (handle_metadata env s url pt ps ex dl).status.volume = s.volume) ∧
    (∀ env p st t, (handle_file env s p st t).status.volume = s.volume) ∧
    (∀ t, (handle_whip_track s t).status.volume = s.volume) :=
  ⟨rfl, rfl,
   fun env url pt ps ex dl => handle_metadata_volume env s url pt ps ex dl,
   fun env p st t => _handle_file_impl_volume env s p st t,
   fun _ => rfl⟩

/-- C7: `delete_resource` on an id absent from the session map (for example
one already removed by the connection-state teardown) is a no-op, and the
double deletion of a present id equals a single deletion, with at most one
close per session. -/
theorem C7_delete_resource_idempotent (st st2 : WhipState) (rid : String)
    (h : st.pcs rid = none) :
    delete_resource st rid = st ∧
    delete_resource (delete_resource st2 rid) rid = delete_resource st2 rid ∧
    (delete_resource (delete_resource st2 rid) rid).closeCalls ≤ st2.closeCalls + 1 := by
  refine ⟨?_, ?_, ?_⟩
  · simp [delete_resource, _cleanup_peer, h]
  · cases h2 : st2.pcs rid <;> simp [delete_resource, _cleanup_peer, h2]
  · cases h2 : st2.pcs rid <;> simp [delete_resource, _cleanup_peer, h2]

theorem C7_witness :
    emptyWhip.pcs "r" = none ∧
    delete_resource emptyWhip "r" = emptyWhip ∧
    delete_resource (delete_resource oneWhip "r") "r" = delete_resource oneWhip "r" ∧
    (delete_resource (delete_resource oneWhip "r") "r").closeCalls ≤ oneWhip.closeCalls + 1 :=
  ⟨rfl,
   (C7_delete_resource_idempotent emptyWhip oneWhip "r" rfl).1,
   (C7_delete_resource_idempotent emptyWhip oneWhip "r" rfl).2.1,
   (C7_delete_resource_idempotent emptyWhip oneWhip "r" rfl).2.2⟩

/-- C9: `current_status` only refreshes `position`, `duration` and
`is_seekable` from the metrics; `stream_type`, `title`, `is_playing` and
`volume` are unchanged. -/
theorem C9_current_status_frame (s : PlayerStatus) (m : PlaybackMetrics) :
    (current_status m s).status =
      { s with position := m.position, duration := m.duration,
               is_seekable := m.is_seekable } ∧
    (current_status m s).status.stream_type = s.stream_type ∧
    (current_status m s).status.title = s.title ∧
    (current_status m s).status.is_playing = s.is_playing ∧
    (current_status m s).status.volume = s.volume ∧
    (current_status m s).status.position = m.position ∧
    (current_status m s).status.duration = m.duration ∧
    (current_status m s).status.is_seekable = m.is_seekable ∧
    (current_status m s).err = none :=
  ⟨rfl, rfl, rfl, rfl, rfl, rfl, rfl, rfl, rfl⟩

/-! Fixtures for the resolver claims. -/

def fmtVideoOnlyA : Format :=
  { url := some "a", vcodec := some "v1", acodec := some "none" }

def infoSingleVideoOnly : Info := { formats := [fmtVideoOnlyA] }

def fmtAudioOnlyA : Format :=
  { url := some "a", vcodec := some "none", acodec := some "mp4a" }

def fmtCombinedB : Format :=
  { url := some "b", vcodec := some "avc1", acodec := some "mp4a" }

def infoPartialThenCombined : Info := { formats := [fmtAudioOnlyA, fmtCombinedB] }

def infoDirectU : Info := { url := some "https-u" }

/-- C3 counterexample: with an audio-only entry listed before a combined
video+audio entry, the formats scan returns the partial entry's URL `"a"`
rather than the combined entry's URL `"b"`: the scan picks the first entry
with a retrievable URL and does not prefer combined entries. -/
theorem C3_counterexample :
    hasVideo fmtAudioOnlyA = false ∧
    hasAudio fmtAudioOnlyA = true ∧
    hasVideo fmtCombinedB = true ∧
    hasAudio fmtCombinedB = true ∧
    (resolveInfo none none infoPartialThenCombined).toOption.map
      ResolvedMedia.playback_url = some "a" ∧
    ¬ (resolveInfo none none infoPartialThenCombined).toOption.map
      ResolvedMedia.playback_url = some "b" := by
  refine ⟨rfl, rfl, rfl, rfl, rfl, ?_⟩
  intro h
  rw [show (resolveInfo none none infoPartialThenCombined).toOption.map
    ResolvedMedia.playback_url = some "a" from rfl] at h
  simp at h

/-- C3 (amended): the concrete scenario holds — a lone video-only format with
URL `"a"` yields a single-URL result referencing `"a"` with `video_url` and
`audio_url` unset — and in general, when the separated branch is not taken
(fewer than two requested formats) and no top-level direct URL is truthy, the
result is determined by the first formats-list entry with a truthy URL,
irrespective of codec completeness (no preference for combined entries within
the scan). -/
theorem C3_formats_scan_first_url (pt : Option String) (ps : Option ℚ)
    (info : Info) (h1 : info.requested_formats.length < 2)
    (h2 : strTruthy (topUrl info) = false) :
    resolveInfo none none infoSingleVideoOnly =
      Except.ok { playback_url := "a" } ∧
    (resolveInfo none none infoSingleVideoOnly).toOption.map
      ResolvedMedia.video_url = some none ∧
    (resolveInfo none none infoSingleVideoOnly).toOption.map
      ResolvedMedia.audio_url = some none ∧
    resolveInfo pt ps info =
      (match scanFormats info.formats with
       | some u => Except.ok { playback_url := u, title := pyOrStr pt info.title,
                               start_time := ps.getD 0 }
       | none => Except.error "No playable format found with direct URL") := by
  refine ⟨rfl, rfl, rfl, ?_⟩
  unfold resolveInfo
  rw [if_neg (by omega : ¬ 2 ≤ info.requested_formats.length)]
  simp only [h2, Bool.false_eq_true, if_false]

theorem C3_witness :
    infoPartialThenCombined.requested_formats.length < 2 ∧
    strTruthy (topUrl infoPartialThenCombined) = false ∧
    resolveInfo (some "T") (some 5) infoPartialThenCombined =
      (match scanFormats infoPartialThenCombined.formats with
       | some u => Except.ok { playback_url := u,
                               title := pyOrStr (some "T") infoPartialThenCombined.title,
                               start_time := (some (5 : ℚ)).getD 0 }
       | none => Except.error "No playable format found with direct URL") :=
  ⟨by decide, rfl,
   (C3_formats_scan_first_url (some "T") (some 5) infoPartialThenCombined
     (by decide) rfl).2.2.2⟩

/-- The metadata round trip of C6 up to the transport play call: resolve a
direct-URL source with `startTime = 30` and dispatch it. -/
def c6_after_play : StepResult :=
  handle_metadata okFileEnv initialStatus "http://example.com/v" none (some 30)
    (some infoDirectU) none

/-- C6 counterexample: after `handle_metadata` with `startTime = 30` the
status has `position = 30` and `is_seekable = true`, but `current_status`
with the metrics query stubbed to return `position = 30` (and nothing else,
so the dataclass default `is_seekable = False` applies) yields
`is_seekable = false`, not `true` as claimed: `current_status` overwrites
`is_seekable` with the metrics value. -/
theorem C6_counterexample :
    c6_after_play.err = none ∧
    c6_after_play.status.position = some 30 ∧
    c6_after_play.status.is_seekable = true ∧
    (current_status { position := some 30 } c6_after_play.status).status.position =
      some 30 ∧
    (current_status { position := some 30 } c6_after_play.status).status.is_seekable =
      false :=
  ⟨rfl, rfl, rfl, rfl, rfl⟩

/-- C6 (amended): the round trip yields `position = 30`, and `is_seekable`
equal to whatever the stubbed metrics report — in particular `true` when the
stub also reports `is_seekable = true`. -/
theorem C6_roundtrip_position30 :
    c6_after_play.err = none ∧
    c6_after_play.status.position = some 30 ∧
    c6_after_play.status.is_seekable = true ∧
    (current_status { position := some 30, duration := none, is_seekable := true }
        c6_after_play.status).status.position = some 30 ∧
    (current_status { position := some 30, duration := none, is_seekable := true }
        c6_after_play.status).status.is_seekable = true ∧
    (∀ m : PlaybackMetrics,
      (current_status m c6_after_play.status).status.position = m.position ∧
      (current_status m c6_after_play.status).status.is_seekable = m.is_seekable) :=
  ⟨rfl, rfl, rfl, rfl, rfl, fun _ => ⟨rfl, rfl⟩⟩

/-- C8: for a niconico URL the download branch is the only one taken: if
info extraction or the download fails, `resolve` fails with the
download-error wrapper — with no fallback into the separated-stream,
direct-URL or formats-scan paths, whatever the extracted info contains — and
on success it produces a file-path `ResolvedMedia`. -/
theorem C8_niconico_no_fallback (url : String) (pt : Option String)
    (ps : Option ℚ) (h : _is_niconico url = true) :
    (∀ dl, resolve url pt ps none dl =
      Except.error "Failed to download niconico video") ∧
    (∀ info, resolve url pt ps (some info) none =
      Except.error "Failed to download niconico video") ∧
    (∀ info fp, resolve url pt ps (some info) (some fp) =
      Except.ok { playback_url := "", title := pyOrStr pt info.title,
                  start_time := ps.getD 0, video_url := none, audio_url := none,
                  file_path := some fp, video_file_path := none,
                  audio_file_path := none }) := by
  unfold resolve
  refine ⟨fun dl => ?_, fun info => ?_, fun info fp => ?_⟩ <;> rw [if_pos h]

theorem C8_witness :
    _is_niconico "https://nico.ms/sm9" = true ∧
    resolve "https://nico.ms/sm9" none none (some infoDirectU) none =
      Except.error "Failed to download niconico video" ∧
    resolve "https://nico.ms/sm9" none none (some infoDirectU) (some "/tmp/v.mp4") =
      Except.ok { playback_url := "", title := infoDirectU.title,
                  start_time := 0, video_url := none, audio_url := none,
                  file_path := some "/tmp/v.mp4", video_file_path := none,
                  audio_file_path := none } :=
  ⟨rfl,
   (C8_niconico_no_fallback "https://nico.ms/sm9" none none rfl).2.1 infoDirectU,
   (C8_niconico_no_fallback "https://nico.ms/sm9" none none rfl).2.2 infoDirectU
     "/tmp/v.mp4"⟩

/-- C10: an empty-string title behaves like an absent title at every public
entry point: `handle_whip_track` stores the placeholder, the file path
handlers derive the title from the file name, and `resolve` falls back to the
backend-extracted title. -/
theorem C10_empty_title_like_absent (s : PlayerStatus) (env : FileEnv)
    (p url : String) (st : ℚ) (ps : Option ℚ) (ex : Option Info)
    (dl : Option String) (hf : env.fileExists p = true) (hp : env.playOk = true) :
    handle_whip_track s (some "") = handle_whip_track s none ∧
    (handle_whip_track s (some "")).status.title = some "Live WHIP Stream" ∧
    _handle_file_impl env s p st (some "") = _handle_file_impl env s p st none ∧
    (_handle_file_impl env s p st (some "")).status.title = some (env.basename p) ∧
    resolve url (some "") ps ex dl = resolve url none ps ex dl := by
  refine ⟨rfl, rfl, rfl, ?_, rfl⟩
  unfold _handle_file_impl
  rw [hf, hp]
  rfl

theorem C10_witness :
    okFileEnv.fileExists "/tmp/a.mp4" = true ∧
    okFileEnv.playOk = true ∧
    (_handle_file_impl okFileEnv initialStatus "/tmp/a.mp4" 0 (some "")).status.title =
      some (okFileEnv.basename "/tmp/a.mp4") ∧
    (handle_whip_track initialStatus (some "")).status.title =
      some "Live WHIP Stream" :=
  ⟨rfl, rfl,
   (C10_empty_title_like_absent initialStatus okFileEnv "/tmp/a.mp4" "http://e/" 0
     none none none rfl rfl).2.2.2.1,
   (C10_empty_title_like_absent initialStatus okFileEnv "/tmp/a.mp4" "http://e/" 0
     none none none rfl rfl).2.1⟩

end MTXCast
